import Mathlib

/-
Verification development for the asciink repository (src/asciink.py and
src/_image.py): a shallow embedding of the program together with proofs
about its behaviour.

The program reads raw bytes from stdin, tries to open them as a raster
image via PIL (signature detection); on failure it decodes them as UTF-8
with replacement and renders the ANSI text through a rich Console to an
HTML file, screenshots the HTML with a headless chromium subprocess, and
hands the resulting image to an Inky e-ink display driver.

External collaborators (PIL, rich, chromium, the inky driver, the
temp-file name generator) are modelled as fields of an `Env` record of
abstract total functions; all file-system, stdout and device effects are
tracked in an explicit `World` record.  The repository's own code
(`main`, `from_ansi`, `is_image`, `binary_exists`, `preview`, the two
theme tables and `InkyRenderer.render`) is translated statement by
statement from the source.
-/

set_option maxHeartbeats 1000000

namespace Asciink

/-- An RGB triple, as used by the theme tables (`(r, g, b)` tuples in the
source). -/
structure RGB where
  r : Nat
  g : Nat
  b : Nat
deriving DecidableEq, Repr

/-- Embedding of `rich.terminal_theme.TerminalTheme`: a default foreground
and background plus the 8 normal and 8 bright ANSI colour slots. -/
structure TerminalTheme where
  foreground : RGB
  background : RGB
  normal : List RGB
  bright : List RGB
deriving DecidableEq, Repr

/-- The light theme constant `INKY_IMPRESSION_73_2025` from asciink.py. -/
def INKY_IMPRESSION_73_2025 : TerminalTheme :=
  { foreground := ⟨0, 0, 0⟩
    background := ⟨255, 255, 255⟩
    normal :=
      [⟨0, 0, 0⟩,        -- black
       ⟨160, 32, 32⟩,    -- red
       ⟨96, 128, 80⟩,    -- green
       ⟨240, 224, 80⟩,   -- yellow
       ⟨80, 128, 184⟩,   -- blue
       ⟨160, 32, 32⟩,    -- magenta mapped to red
       ⟨80, 128, 184⟩,   -- cyan mapped to blue
       ⟨255, 255, 255⟩]  -- white
    bright :=
      [⟨0, 0, 0⟩,
       ⟨160, 32, 32⟩,
       ⟨96, 128, 80⟩,
       ⟨240, 224, 80⟩,
       ⟨80, 128, 184⟩,
       ⟨160, 32, 32⟩,
       ⟨80, 128, 184⟩,
       ⟨255, 255, 255⟩] }

/-- The dark theme constant `INKY_IMPRESSION_73_2025_DARK` from asciink.py. -/
def INKY_IMPRESSION_73_2025_DARK : TerminalTheme :=
  { foreground := ⟨255, 255, 255⟩
    background := ⟨0, 0, 0⟩
    normal :=
      [⟨0, 0, 0⟩,
       ⟨160, 32, 32⟩,
       ⟨96, 128, 80⟩,
       ⟨240, 224, 80⟩,
       ⟨80, 128, 184⟩,
       ⟨160, 32, 32⟩,
       ⟨80, 128, 184⟩,
       ⟨255, 255, 255⟩]
    bright :=
      [⟨0, 0, 0⟩,
       ⟨160, 32, 32⟩,
       ⟨96, 128, 80⟩,
       ⟨240, 224, 80⟩,
       ⟨80, 128, 184⟩,
       ⟨160, 32, 32⟩,
       ⟨80, 128, 184⟩,
       ⟨255, 255, 255⟩] }

/-- A decoded raster image (the observable part of a `PIL.Image`). -/
structure PILImage where
  width : Nat
  height : Nat
  pixels : List RGB
deriving DecidableEq, Repr

/-- The data `rich.Console.save_html` receives in `from_ansi`: the theme,
the `inline_styles` flag, the `code_format` template produced by
`preview`, and the recorded console output that gets substituted into the
template. -/
structure HtmlDoc where
  theme : TerminalTheme
  inline_styles : Bool
  code_format : String
  body : String
deriving DecidableEq

/-- Content of a file on disk: either the saved HTML document or a PNG
screenshot. -/
inductive FileData where
  | html (doc : HtmlDoc)
  | png (img : PILImage)
deriving DecidableEq

/-- The observable effects of a run: files on disk, lines printed to
stdout, the image last sent to the Inky display, whether the display was
refreshed, and the images opened in a debug viewer. -/
structure World where
  files : List (String × FileData)
  printed : List String
  deviceImage : Option PILImage
  deviceShown : Bool
  debugShown : List PILImage
deriving DecidableEq

/-- The parsed command-line arguments of asciink.py (the `argparse`
namespace). -/
structure Args where
  debug : Bool
  image_path : String
  font_size : Rat
  columns : Int
  rows : Int
  chromium_headless_shell_bin : String
  saturation : Rat
  contrast : Rat

/-- The external collaborators, modelled as abstract total functions:
PIL's signature-based `Image.open` (`none` models the
`UnidentifiedImageError` caught by `is_image`), rich's console recording,
the temp-file name chosen by `tempfile.NamedTemporaryFile`, the set of
binaries `shutil.which` can find, the chromium subprocess (exit code,
whether it writes the screenshot file, and the pixels it produces for a
command line), the inky driver's `set_image` colour adaptation, and the
display's reported resolution and colour capability. -/
structure Env where
  pilOpen : List Nat → Option PILImage
  richRecord : Int → Int → String → String
  tmpName : String
  binaries : List String
  screenshotExit : Int
  screenshotWrites : Bool
  screenshot : List String → PILImage
  setImage : PILImage → Rat → PILImage
  displayResolution : Nat × Nat
  displayColour : String

/-- Result type of a `main` run: an uncaught Python exception (message
plus the world at the time it propagates) or a process exit status with
the final world. -/
abbrev MainResult := Except (String × World) (Int × World)

/-! ### UTF-8 decoding with replacement

`stdin.decode("utf-8", errors="replace")` from `main`: a total decoder
that substitutes U+FFFD for each maximal invalid subpart, per CPython's
`replace` error handler. -/

/-- Is `c` a UTF-8 continuation byte (`0x80..0xBF`)? -/
def isCont (c : Nat) : Bool :=
  decide (0x80 ≤ c ∧ c < 0xC0)

/-- Lower bound for the first continuation byte after lead byte `b`
(tightened for `0xE0`/`0xF0` to exclude overlong encodings). -/
def cont1Lo (b : Nat) : Nat :=
  if b = 0xE0 then 0xA0 else if b = 0xF0 then 0x90 else 0x80

/-- Upper bound for the first continuation byte after lead byte `b`
(tightened for `0xED` to exclude surrogates and for `0xF4` to cap at
U+10FFFF). -/
def cont1Hi (b : Nat) : Nat :=
  if b = 0xED then 0x9F else if b = 0xF4 then 0x8F else 0xBF

/-- Is `c` valid as the first continuation byte after lead byte `b`? -/
def contOk1 (b c : Nat) : Bool :=
  decide (cont1Lo b ≤ c ∧ c ≤ cont1Hi b)

/-- The replacement character U+FFFD. -/
def replChar : Char := Char.ofNat 0xFFFD

/-- Total UTF-8 decoder with replacement-character substitution for every
invalid maximal subpart, modelling Python's
`bytes.decode("utf-8", errors="replace")`. -/
def decodeUtf8Replace : List Nat → List Char
  | [] => []
  | b :: rest =>
    if b < 0x80 then
      Char.ofNat b :: decodeUtf8Replace rest
    else if 0xC2 ≤ b ∧ b ≤ 0xDF then
      match rest with
      | [] => [replChar]
      | c1 :: rest2 =>
        if isCont c1 then
          Char.ofNat ((b - 0xC0) * 0x40 + (c1 - 0x80)) :: decodeUtf8Replace rest2
        else
          replChar :: decodeUtf8Replace (c1 :: rest2)
    else if 0xE0 ≤ b ∧ b ≤ 0xEF then
      match rest with
      | [] => [replChar]
      | c1 :: rest2 =>
        if contOk1 b c1 then
          match rest2 with
          | [] => [replChar]
          | c2 :: rest3 =>
            if isCont c2 then
              Char.ofNat ((b - 0xE0) * 0x1000 + (c1 - 0x80) * 0x40 + (c2 - 0x80)) ::
                decodeUtf8Replace rest3
            else
              replChar :: decodeUtf8Replace (c2 :: rest3)
        else
          replChar :: decodeUtf8Replace (c1 :: rest2)
    else if 0xF0 ≤ b ∧ b ≤ 0xF4 then
      match rest with
      | [] => [replChar]
      | c1 :: rest2 =>
        if contOk1 b c1 then
          match rest2 with
          | [] => [replChar]
          | c2 :: rest3 =>
            if isCont c2 then
              match rest3 with
              | [] => [replChar]
              | c3 :: rest4 =>
                if isCont c3 then
                  Char.ofNat ((b - 0xF0) * 0x40000 + (c1 - 0x80) * 0x1000 +
                      (c2 - 0x80) * 0x40 + (c3 - 0x80)) :: decodeUtf8Replace rest4
                else
                  replChar :: decodeUtf8Replace (c3 :: rest4)
            else
              replChar :: decodeUtf8Replace (c2 :: rest3)
        else
          replChar :: decodeUtf8Replace (c1 :: rest2)
    else
      replChar :: decodeUtf8Replace rest

example : decodeUtf8Replace [0x41, 0x42] = ['A', 'B'] := by decide

example : decodeUtf8Replace [0xC2, 0xA9] = ['©'] := by decide

example : decodeUtf8Replace [0x80] = [replChar] := by decide

example : decodeUtf8Replace [0xE2, 0x82] = [replChar] := by decide

example : decodeUtf8Replace [0xC2, 0x41] = [replChar, 'A'] := by decide

/-! ### File-system model -/

/-- Look up a file by name; the most recently written entry wins
(writes append to `World.files`). -/
def lookupFile : List (String × FileData) → String → Option FileData
  | [], _ => none
  | (k, v) :: t, n =>
    match lookupFile t n with
    | some r => some r
    | none => if k = n then some v else none

/-- `os.path.exists` over the modelled file system. -/
def fileExists (w : World) (n : String) : Bool :=
  (lookupFile w.files n).isSome

/-- `os.remove` over the modelled file system. -/
def removeFile (w : World) (n : String) : World :=
  { w with files := w.files.filter (fun p => p.1 ≠ n) }

theorem lookupFile_append_same (l : List (String × FileData)) (k : String) (v : FileData) :
    lookupFile (l ++ [(k, v)]) k = some v := by
  induction l with
  | nil => simp [lookupFile]
  | cons p t ih => simp [lookupFile, ih]

theorem lookupFile_append_ne (l : List (String × FileData)) (k n : String) (v : FileData)
    (h : k ≠ n) : lookupFile (l ++ [(k, v)]) n = lookupFile l n := by
  induction l with
  | nil => simp [lookupFile, h]
  | cons p t ih => simp [lookupFile, ih]

theorem lookupFile_filter_self (l : List (String × FileData)) (n : String) :
    lookupFile (l.filter (fun p => p.1 ≠ n)) n = none := by
  induction l with
  | nil => simp [lookupFile]
  | cons p t ih =>
    by_cases hp : p.1 = n
    · rw [List.filter_cons, if_neg (by simp [hp])]
      exact ih
    · rw [List.filter_cons, if_pos (by simp [hp])]
      simp only [lookupFile]
      rw [ih]
      simp [hp]

theorem lookupFile_filter_ne (l : List (String × FileData)) (m n : String) (h : m ≠ n) :
    lookupFile (l.filter (fun p => p.1 ≠ n)) m = lookupFile l m := by
  induction l with
  | nil => simp
  | cons p t ih =>
    by_cases hp : p.1 = n
    · have hm : ¬ p.1 = m := fun hc => h (hc ▸ hp)
      rw [List.filter_cons, if_neg (by simp [hp])]
      rw [ih]
      simp only [lookupFile]
      cases hlm : lookupFile t m <;> simp [hm]
    · rw [List.filter_cons, if_pos (by simp [hp])]
      simp only [lookupFile]
      rw [ih]

/-! ### The program -/

/-- `binary_exists` from asciink.py: `shutil.which(name) is not None`. -/
def binary_exists (env : Env) (name : String) : Bool :=
  env.binaries.contains name

/-- `is_image` from asciink.py: `PIL.Image.open` on the raw bytes,
returning `none` when PIL raises `UnidentifiedImageError` (signature
detection failed). -/
def is_image (env : Env) (data : List Nat) : Option PILImage :=
  env.pilOpen data

/-- `preview` from asciink.py: the HTML `code_format` template handed to
`rich.Console.save_html`, with the caller's font size interpolated.
Braces that the Python f-string leaves for rich's later `.format` call
are kept; the single-quote marks around font names in the source are
elided here. -/
def preview (font_size : Rat) : String :=
  "\n    <!DOCTYPE html>\n    <html>\n    <head>\n    <meta charset=\"UTF-8\">\n    <style>\n    body \x7b\x7b\n        margin: 0;\n        padding: 0;\n        width: 800px;\n        height: 480px;\n        overflow: hidden;\n    \x7d\x7d\n\n    pre \x7b\x7b\n        \x7bstylesheet\x7d\n        color: \x7bforeground\x7d;\n        background-color: \x7bbackground\x7d;\n        font-size: " ++
    toString font_size ++
    "px;\n        border: 1px solid black;\n        margin: 0;\n        padding: 2px;\n        width: 800px;\n        height: 480px;\n    \x7d\x7d\n    </style>\n    </head>\n    <body>\n        <pre style=\"font-family:Menlo,DejaVu Sans Mono,consolas,Courier New,monospace\"><code style=\"font-family:inherit\">\x7bcode\x7d</code></pre>\n    </body>\n    </html>\n    "

/-- The HTML document `from_ansi` saves: the console's recorded output is
rendered with the hard-coded dark theme, `inline_styles=False`, and the
`preview` template. -/
def fromAnsiDoc (env : Env) (a : Args) (stdin : String) : HtmlDoc :=
  { theme := INKY_IMPRESSION_73_2025_DARK
    inline_styles := false
    code_format := preview a.font_size
    body := env.richRecord a.columns a.rows stdin }

/-- The path of the temporary HTML file created by
`tempfile.NamedTemporaryFile(dir=args.image_path, suffix=".html",
delete=False)`. -/
def fromAnsiSrcName (env : Env) (a : Args) : String :=
  a.image_path ++ "/" ++ env.tmpName ++ ".html"

/-- `output_png = args.image_path / "output.png"`. -/
def outputPngName (a : Args) : String :=
  a.image_path ++ "/output.png"

/-- The chromium command line built in `from_ansi`, element for element. -/
def fromAnsiCommand (a : Args) (srcName output_png : String) : List String :=
  [a.chromium_headless_shell_bin,
   "--screenshot=" ++ output_png,
   "--window-size=800,480",
   "--disable-dev-shm-usage",
   "--disable-gpu",
   "--use-gl=swiftshader",
   "--hide-scrollbars",
   "--in-process-gpu",
   "--js-flags=--jitless",
   "--disable-zero-copy",
   "--disable-gpu-memory-buffer-compositor-resources",
   "--disable-extensions",
   "--disable-plugins",
   "--mute-audio",
   "--no-sandbox",
   "file://" ++ srcName]

/-- `from_ansi` from asciink.py, line by line: record the ANSI text with a
rich Console, save it as HTML (dark theme) to a temp file, raise if the
chromium binary is missing, run the chromium screenshot subprocess, raise
if it failed or produced no file, load the screenshot, delete the
screenshot file, and return the image.  Raised exceptions carry the world
in which they propagate. -/
def from_ansi (env : Env) (a : Args) (stdin : String) (w : World) :
    Except (String × World) (PILImage × World) :=
  let doc := fromAnsiDoc env a stdin
  let srcName := fromAnsiSrcName env a
  let w1 : World := { w with files := w.files ++ [(srcName, FileData.html doc)] }
  let output_png := outputPngName a
  if binary_exists env a.chromium_headless_shell_bin = false then
    .error ("Expected " ++ a.chromium_headless_shell_bin ++ " to be installed", w1)
  else
    let command := fromAnsiCommand a srcName output_png
    let w2 : World :=
      if env.screenshotWrites = true then
        { w1 with files := w1.files ++ [(output_png, FileData.png (env.screenshot command))] }
      else w1
    if env.screenshotExit ≠ 0 ∨ fileExists w2 output_png = false then
      .error ("Failed capturing screenshot", w2)
    else
      .ok (env.screenshot command, removeFile w2 output_png)

/-- `InkyRenderer.__init__` plus `_print_screen_info` from _image.py:
detect the display and print its resolution and colour capability. -/
def printScreenInfo (env : Env) (w : World) : World :=
  { w with printed := w.printed ++
      ["Inky Display: " ++ toString env.displayResolution ++ " Color: " ++ env.displayColour] }

set_option linter.unusedVariables false in
/-- `InkyRenderer.render` from _image.py: `set_image(img,
saturation=saturation)` followed by `show()`.  The `contrast` parameter
is accepted but, as in the source, never used. -/
def InkyRenderer.render (env : Env) (img : PILImage) (saturation contrast : Rat)
    (w : World) : World :=
  { w with deviceImage := some (env.setImage img saturation), deviceShown := true }

/-- `image.show(title="Debug Output")`: open the image in a system
viewer. -/
def showDebug (img : PILImage) (w : World) : World :=
  { w with debugShown := w.debugShown ++ [img] }

/-- Stands for the text `argparse`'s `parser.print_help()` writes to
stdout. -/
def helpText : String :=
  "asciink, display any ansi input or image on an E-Ink screen"

/-- The shared tail of `main` once `image` is bound: show it in the debug
viewer, or construct an `InkyRenderer` (printing the screen info) and
render it to the display; either way return exit status 0. -/
def imageShowOrRender (env : Env) (a : Args) (image : PILImage) (w : World) : MainResult :=
  if a.debug = true then
    .ok (0, showDebug image w)
  else
    .ok (0, InkyRenderer.render env image a.saturation a.contrast (printScreenInfo env w))

/-- `main` from asciink.py, after argument parsing: read stdin; if it is
empty or stdin is a terminal, print the help and return 1; otherwise
`image = is_image(stdin) or from_ansi(args, stdin.decode("utf-8",
errors="replace"))`, then show or render the image and return 0. -/
def main (env : Env) (a : Args) (stdinBytes : List Nat) (isatty : Bool) (w : World) :
    MainResult :=
  if stdinBytes.length = 0 ∨ isatty = true then
    .ok (1, { w with printed := w.printed ++ [helpText] })
  else
    match is_image env stdinBytes with
    | some image => imageShowOrRender env a image w
    | none =>
      match from_ansi env a (String.mk (decodeUtf8Replace stdinBytes)) w with
      | .error e => .error e
      | .ok (image, w1) => imageShowOrRender env a image w1

/-- The image a successful `from_ansi` returns: the chromium screenshot
for the command it ran. -/
def fromAnsiImage (env : Env) (a : Args) : PILImage :=
  env.screenshot (fromAnsiCommand a (fromAnsiSrcName env a) (outputPngName a))

/-- The world a successful `from_ansi` leaves: the HTML file written,
the screenshot written and then removed. -/
def fromAnsiOkWorld (env : Env) (a : Args) (stdin : String) (w : World) : World :=
  removeFile
    { w with files :=
        (w.files ++ [(fromAnsiSrcName env a, FileData.html (fromAnsiDoc env a stdin))]) ++
          [(outputPngName a, FileData.png (fromAnsiImage env a))] }
    (outputPngName a)

/-! ### Spec-side definition for the contrast transform -/

/-- Modelled from the spec: §4.4's contrast step, missing from the
source's render path — remap lightness around the midpoint,
`L' = clamp(0.5 + (L - 0.5) * C, 0, 1)`. -/
def specContrastRemap (L C : Rat) : Rat :=
  if 1/2 + (L - 1/2) * C < 0 then 0
  else if 1 < 1/2 + (L - 1/2) * C then 1
  else 1/2 + (L - 1/2) * C

/-! ### Result projections -/

/-- The exit status of a `main` run that returned normally. -/
def exitOf : MainResult → Option Int
  | .ok (n, _) => some n
  | .error _ => none

/-- The final world of a `main` run, whether it returned or raised. -/
def worldOf : MainResult → Option World
  | .ok (_, w) => some w
  | .error (_, w) => some w

/-- The message of an uncaught exception, if the run raised. -/
def errOf : MainResult → Option String
  | .ok _ => none
  | .error (s, _) => some s

/-- The image of a successful `from_ansi` call. -/
def okImageOf : Except (String × World) (PILImage × World) → Option PILImage
  | .ok (i, _) => some i
  | .error _ => none

/-! ### Concrete instances used by witnesses and counterexamples -/

/-- An 800×480 screenshot image (the size chromium produces for the
hard-coded `--window-size=800,480`). -/
def img0 : PILImage := { width := 800, height := 480, pixels := [] }

/-- The default argument values of asciink.py's argument parser. -/
def args0 : Args :=
  { debug := false
    image_path := "/tmp"
    font_size := 12
    columns := 100
    rows := 20
    chromium_headless_shell_bin := "chromium-headless-shell"
    saturation := 3/5
    contrast := 7/5 }

/-- A fresh world: empty file system, nothing printed, display idle. -/
def world0 : World :=
  { files := [], printed := [], deviceImage := none, deviceShown := false, debugShown := [] }

/-- An environment in which everything works: PIL recognises the PNG
signature, the chromium binary is installed, the screenshot subprocess
exits 0 and writes its file. -/
def envGood : Env :=
  { pilOpen := fun bs => if bs.take 4 = [137, 80, 78, 71] then some img0 else none
    richRecord := fun _ _ s => s
    tmpName := "tmp123"
    binaries := ["chromium-headless-shell"]
    screenshotExit := 0
    screenshotWrites := true
    screenshot := fun _ => img0
    setImage := fun i _ => i
    displayResolution := (800, 480)
    displayColour := "7colour" }

/-- Like `envGood` but the chromium subprocess fails: nonzero exit code
and no screenshot file. -/
def envFail : Env := { envGood with screenshotExit := 1, screenshotWrites := false }

/-- Like `envGood` but the Inky display reports a 600×448 resolution. -/
def envSmall : Env := { envGood with displayResolution := (600, 448) }

/-- The default arguments with `--rows 0 --columns 0`. -/
def argsZero : Args := { args0 with rows := 0, columns := 0 }

/-! ### Shared behaviour lemmas -/

/-- When the chromium binary is installed and the screenshot subprocess
succeeds, `from_ansi` returns the screenshot image and leaves exactly the
HTML file behind (the PNG is written and then removed). -/
theorem from_ansi_ok (env : Env) (a : Args) (s : String) (w : World)
    (hbin : binary_exists env a.chromium_headless_shell_bin = true)
    (hexit : env.screenshotExit = 0)
    (hwrites : env.screenshotWrites = true) :
    from_ansi env a s w = .ok (fromAnsiImage env a, fromAnsiOkWorld env a s w) := by
  have hlook :
      lookupFile
        ((w.files ++ [(fromAnsiSrcName env a, FileData.html (fromAnsiDoc env a s))]) ++
          [(outputPngName a, FileData.png (fromAnsiImage env a))]) (outputPngName a) =
        some (FileData.png (fromAnsiImage env a)) :=
    lookupFile_append_same _ _ _
  simp only [from_ansi, hbin, hwrites, hexit, fileExists, fromAnsiImage, fromAnsiOkWorld,
    Bool.true_eq_false, if_false, if_true, ite_true, ite_false]
  rw [if_neg (by
    have h2 := hlook
    simp only [List.append_assoc, List.singleton_append] at h2
    simp only [fromAnsiImage] at h2
    simp [h2])]

/-- `imageShowOrRender` always returns exit status 0 (with some final
world). -/
theorem imageShowOrRender_ok (env : Env) (a : Args) (img : PILImage) (w : World) :
    ∃ w2, imageShowOrRender env a img w = .ok (0, w2) := by
  unfold imageShowOrRender
  by_cases hd : a.debug = true
  · exact ⟨_, by rw [if_pos hd]⟩
  · exact ⟨_, by rw [if_neg hd]⟩

/-- Whatever world `imageShowOrRender` produces, the exit status is 0. -/
theorem imageShowOrRender_exit (env : Env) (a : Args) (img : PILImage) (w : World)
    (n : Int) (w2 : World) (h : imageShowOrRender env a img w = .ok (n, w2)) : n = 0 := by
  unfold imageShowOrRender at h
  split at h <;> simp_all

/-! ### Claims -/

/-- C1 (amended): no input is ever rejected based on its content —
classification always selects a path and decoding always succeeds with
replacement — and whenever the chromium binary is installed and the
screenshot subprocess succeeds, `main` completes normally on every
non-empty piped input; however (see the counterexample) the ANSI path is
not unconditionally abort-free. -/
theorem c1_render_completes (env : Env) (a : Args) (bytes : List Nat) (w : World)
    (h : bytes.length ≠ 0)
    (hbin : binary_exists env a.chromium_headless_shell_bin = true)
    (hexit : env.screenshotExit = 0)
    (hwrites : env.screenshotWrites = true) :
    ∃ n w2, main env a bytes false w = .ok (n, w2) := by
  have hneg : ¬ (bytes.length = 0 ∨ false = true) := by simp [h]
  cases his : is_image env bytes with
  | some img =>
    obtain ⟨w2, hw2⟩ := imageShowOrRender_ok env a img w
    exact ⟨0, w2, by simp only [main, if_neg hneg, his, hw2]⟩
  | none =>
    have hfa := from_ansi_ok env a (String.mk (decodeUtf8Replace bytes)) w hbin hexit hwrites
    obtain ⟨w2, hw2⟩ := imageShowOrRender_ok env a (fromAnsiImage env a)
      (fromAnsiOkWorld env a (String.mk (decodeUtf8Replace bytes)) w)
    exact ⟨0, w2, by simp only [main, if_neg hneg, his, hfa, hw2]⟩

/-- Witness for C1: a concrete run in a healthy environment returns
normally. -/
theorem c1_render_completes_witness :
    (exitOf (main envGood args0 [104] false world0)).isSome = true := by
  obtain ⟨n, w2, hm⟩ := c1_render_completes envGood args0 [104] world0 (by decide) rfl rfl rfl
  rw [hm]
  rfl

/-- Counterexample for C1 as stated: with the chromium binary installed
but the screenshot subprocess failing, the concrete input `"h"` reaches
the ANSI path, the HTML file is written (rendering has begun), and the
pipeline then raises "Failed capturing screenshot" instead of producing
a bitmap. -/
theorem c1_ansi_path_raises_counterexample :
    errOf (main envFail args0 [104] false world0) = some "Failed capturing screenshot" ∧
    (worldOf (main envFail args0 [104] false world0)).map
        (fun w => (lookupFile w.files (fromAnsiSrcName envFail args0)).isSome) =
      some true := by
  constructor <;> rfl

/-- C2 (code bug): `InkyRenderer.render` receives the caller's contrast
multiplier but never uses it — `set_image` is called with the saturation
only — so the device output is identical for any two contrast values,
although the spec's midpoint contrast remap is not constant in C. -/
theorem c2_contrast_ignored :
    InkyRenderer.render envGood img0 (3/5) (7/5) world0 =
      InkyRenderer.render envGood img0 (3/5) 99 world0 ∧
    specContrastRemap (3/4) 2 ≠ specContrastRemap (3/4) 1 := by
  constructor
  · rfl
  · norm_num [specContrastRemap]

/-- C3: classification attempts PIL signature detection first and takes
the ANSI path exactly when it fails; the ANSI path receives the bytes
decoded by the total replacement decoder (shown: invalid lead bytes
become U+FFFD, and decoding never produces nothing from something). -/
theorem c3_classification_and_decoding (env : Env) (a : Args) (bytes : List Nat)
    (w : World) (h : bytes.length ≠ 0) :
    (∀ img, is_image env bytes = some img →
      main env a bytes false w = imageShowOrRender env a img w) ∧
    (∀ e, is_image env bytes = none →
      from_ansi env a (String.mk (decodeUtf8Replace bytes)) w = .error e →
      main env a bytes false w = .error e) ∧
    (∀ img w1, is_image env bytes = none →
      from_ansi env a (String.mk (decodeUtf8Replace bytes)) w = .ok (img, w1) →
      main env a bytes false w = imageShowOrRender env a img w1) ∧
    (∀ b rest, 0x80 ≤ b → b ≤ 0xC1 →
      decodeUtf8Replace (b :: rest) = replChar :: decodeUtf8Replace rest) ∧
    (∀ bs : List Nat, bs ≠ [] → decodeUtf8Replace bs ≠ []) := by
  have hneg : ¬ (bytes.length = 0 ∨ false = true) := by simp [h]
  refine ⟨?_, ?_, ?_, ?_, ?_⟩
  · intro img hi
    simp only [main, if_neg hneg, hi]
  · intro e hi hf
    simp only [main, if_neg hneg, hi, hf]
  · intro img w1 hi hf
    simp only [main, if_neg hneg, hi, hf]
  · intro b rest hb1 hb2
    rw [decodeUtf8Replace.eq_def]
    simp only []
    rw [if_neg (by omega), if_neg (by omega), if_neg (by omega), if_neg (by omega)]
  · intro bs hbs
    cases bs with
    | nil => exact absurd rfl hbs
    | cons b rest =>
      rw [decodeUtf8Replace.eq_def]
      repeat' split
      all_goals simp_all

/-- Witness for C3: PNG magic bytes take the image path; the invalid
byte 0x80 decodes to the replacement character. -/
theorem c3_classification_and_decoding_witness :
    main envGood args0 [137, 80, 78, 71] false world0 =
      imageShowOrRender envGood args0 img0 world0 ∧
    decodeUtf8Replace [0x80, 0x41] = [replChar, 'A'] := by
  constructor
  · exact (c3_classification_and_decoding envGood args0 [137, 80, 78, 71] world0
      (by decide)).1 img0 rfl
  · have hd := (c3_classification_and_decoding envGood args0 [137, 80, 78, 71] world0
      (by decide)).2.2.2.1 0x80 [0x41] (by decide) (by decide)
    rw [hd]
    decide

/-- C4 (amended): both theme tables exist with 8 normal + 8 bright ANSI
slots plus default foreground/background, but `from_ansi` hard-codes the
dark variant for every render — the theme is not caller-selectable. -/
theorem c4_two_themes_dark_hardcoded :
    INKY_IMPRESSION_73_2025.normal.length = 8 ∧
    INKY_IMPRESSION_73_2025.bright.length = 8 ∧
    INKY_IMPRESSION_73_2025_DARK.normal.length = 8 ∧
    INKY_IMPRESSION_73_2025_DARK.bright.length = 8 ∧
    ∀ (env : Env) (a : Args) (s : String),
      (fromAnsiDoc env a s).theme = INKY_IMPRESSION_73_2025_DARK :=
  ⟨rfl, rfl, rfl, rfl, fun _ _ _ => rfl⟩

/-- Counterexample for C4 as stated: no choice of environment or
command-line arguments makes a render use the light theme. -/
theorem c4_theme_not_selectable_counterexample :
    ¬ ∃ (env : Env) (a : Args) (s : String),
        (fromAnsiDoc env a s).theme = INKY_IMPRESSION_73_2025 := by
  rintro ⟨env, a, s, hth⟩
  simp only [fromAnsiDoc] at hth
  exact absurd hth (by decide)

/-- C5 (amended): the rasterization resolution is the hard-coded
`--window-size=800,480` in the chromium command line; `from_ansi` is
entirely independent of the resolution the display collaborator
reports. -/
theorem c5_resolution_hardcoded :
    (∀ (a : Args) (srcName output_png : String),
      "--window-size=800,480" ∈ fromAnsiCommand a srcName output_png) ∧
    (∀ (env : Env) (r : Nat × Nat) (a : Args) (s : String) (w : World),
      from_ansi { env with displayResolution := r } a s w = from_ansi env a s w) := by
  constructor
  · intro a sn op
    simp [fromAnsiCommand]
  · intro env r a s w
    rfl

/-- Counterexample for C5 as stated: with the display reporting 600×448,
the produced pixel buffer is still 800 pixels wide. -/
theorem c5_fixed_buffer_counterexample :
    envSmall.displayResolution = (600, 448) ∧
    (okImageOf (from_ansi envSmall args0 "hello" world0)).map PILImage.width = some 800 ∧
    (800 : Nat) ≠ 600 := by
  refine ⟨rfl, rfl, by decide⟩

set_option linter.unusedVariables false in
/-- C6 (amended): the code performs no grid/resolution validation — with
`--rows 0 --columns 0` the console is simply created with width and
height 0 and, in a healthy environment, the render runs to completion
and refreshes the display; no configuration error is ever raised (the
rows/columns hypotheses pin the claim's configuration but, precisely
because the code never validates them, are unused by the proof). -/
theorem c6_no_config_validation (env : Env) (a : Args) (bytes : List Nat) (w : World)
    (hr : a.rows = 0) (hc : a.columns = 0)
    (h : bytes.length ≠ 0) (hi : is_image env bytes = none) (hd : a.debug = false)
    (hbin : binary_exists env a.chromium_headless_shell_bin = true)
    (hexit : env.screenshotExit = 0) (hwrites : env.screenshotWrites = true) :
    ∃ w2, main env a bytes false w = .ok (0, w2) ∧ w2.deviceShown = true := by
  have hneg : ¬ (bytes.length = 0 ∨ false = true) := by simp [h]
  have hfa := from_ansi_ok env a (String.mk (decodeUtf8Replace bytes)) w hbin hexit hwrites
  refine ⟨InkyRenderer.render env (fromAnsiImage env a) a.saturation a.contrast
      (printScreenInfo env (fromAnsiOkWorld env a (String.mk (decodeUtf8Replace bytes)) w)),
    ?_, rfl⟩
  simp only [main, if_neg hneg, hi, hfa, imageShowOrRender, hd]
  rw [if_neg (by simp)]

/-- Witness for C6: the concrete zero-rows/zero-columns run returns
exit status 0. -/
theorem c6_no_config_validation_witness :
    exitOf (main envGood argsZero [104] false world0) = some 0 := by
  obtain ⟨w2, hm, hs⟩ := c6_no_config_validation envGood argsZero [104] world0
    rfl rfl (by decide) rfl rfl rfl rfl rfl
  rw [hm]
  rfl

/-- Counterexample for C6 as stated: at the inconsistent configuration
rows = 0, columns = 0, the pipeline does not raise any configuration
error — it renders to completion and refreshes the display. -/
theorem c6_zero_config_renders_counterexample :
    exitOf (main envGood argsZero [104] false world0) = some 0 ∧
    (worldOf (main envGood argsZero [104] false world0)).map World.deviceShown =
      some true := by
  constructor <;> rfl

/-- C7 (amended): a successful `from_ansi` deletes the intermediate
`output.png` before returning, but the temporary HTML file written
during the render persists after the render completes. -/
theorem c7_temp_html_persists (env : Env) (a : Args) (s : String) (w : World)
    (hbin : binary_exists env a.chromium_headless_shell_bin = true)
    (hexit : env.screenshotExit = 0)
    (hwrites : env.screenshotWrites = true)
    (hner : fromAnsiSrcName env a ≠ outputPngName a) :
    ∃ img w2, from_ansi env a s w = .ok (img, w2) ∧
      lookupFile w2.files (outputPngName a) = none ∧
      lookupFile w2.files (fromAnsiSrcName env a) =
        some (FileData.html (fromAnsiDoc env a s)) := by
  refine ⟨fromAnsiImage env a, fromAnsiOkWorld env a s w,
    from_ansi_ok env a s w hbin hexit hwrites, ?_, ?_⟩
  · simp only [fromAnsiOkWorld, removeFile]
    exact lookupFile_filter_self _ _
  · simp only [fromAnsiOkWorld, removeFile]
    rw [lookupFile_filter_ne _ _ _ hner]
    rw [lookupFile_append_ne _ _ _ _ (fun hc => hner hc.symm)]
    exact lookupFile_append_same _ _ _

/-- Witness for C7 at a concrete run: the PNG is gone, the HTML file is
still on disk. -/
theorem c7_temp_html_persists_witness :
    from_ansi envGood args0 "hi" world0 =
      .ok (fromAnsiImage envGood args0, fromAnsiOkWorld envGood args0 "hi" world0) ∧
    lookupFile (fromAnsiOkWorld envGood args0 "hi" world0).files (outputPngName args0) =
      none ∧
    lookupFile (fromAnsiOkWorld envGood args0 "hi" world0).files
        (fromAnsiSrcName envGood args0) =
      some (FileData.html (fromAnsiDoc envGood args0 "hi")) := by
  obtain ⟨img, w2, h1, h2, h3⟩ :=
    c7_temp_html_persists envGood args0 "hi" world0 rfl rfl rfl (by decide)
  have he : from_ansi envGood args0 "hi" world0 =
      .ok (fromAnsiImage envGood args0, fromAnsiOkWorld envGood args0 "hi" world0) :=
    from_ansi_ok envGood args0 "hi" world0 rfl rfl rfl
  rw [he] at h1
  injection h1 with h1p
  cases h1p
  exact ⟨he, h2, h3⟩

/-- Counterexample for C7 as stated: a render that completes with exit
status 0 leaves behind a file it created (the temporary HTML), which did
not exist before the render. -/
theorem c7_file_left_behind_counterexample :
    exitOf (main envGood args0 [104] false world0) = some 0 ∧
    lookupFile world0.files (fromAnsiSrcName envGood args0) = none ∧
    (worldOf (main envGood args0 [104] false world0)).map
        (fun w => (lookupFile w.files (fromAnsiSrcName envGood args0)).isSome) =
      some true := by
  refine ⟨rfl, rfl, rfl⟩

/-- C8 (amended): when signature detection succeeds, rasterization is
skipped entirely — no file is written, `from_ansi` is never involved, and
the decoded image goes straight to the device after only the vendor
`set_image` colour adaptation parameterized by the saturation (the
contrast parameter is accepted but not applied). -/
theorem c8_image_path_skips_rasterization (env : Env) (a : Args) (bytes : List Nat)
    (w : World) (img : PILImage)
    (h : bytes.length ≠ 0) (hi : is_image env bytes = some img) (hd : a.debug = false) :
    main env a bytes false w =
      .ok (0, { w with
        printed := w.printed ++
          ["Inky Display: " ++ toString env.displayResolution ++ " Color: " ++
            env.displayColour],
        deviceImage := some (env.setImage img a.saturation),
        deviceShown := true }) := by
  have hneg : ¬ (bytes.length = 0 ∨ false = true) := by simp [h]
  simp only [main, if_neg hneg, hi, imageShowOrRender, hd, InkyRenderer.render,
    printScreenInfo]
  rw [if_neg (by simp)]

/-- Witness for C8: the PNG-signature input is rendered directly with no
file-system effect. -/
theorem c8_image_path_skips_rasterization_witness :
    main envGood args0 [137, 80, 78, 71] false world0 =
      .ok (0, { world0 with
        printed := world0.printed ++
          ["Inky Display: " ++ toString envGood.displayResolution ++ " Color: " ++
            envGood.displayColour],
        deviceImage := some (envGood.setImage img0 args0.saturation),
        deviceShown := true }) :=
  c8_image_path_skips_rasterization envGood args0 [137, 80, 78, 71] world0 img0
    (by decide) rfl rfl

/-- Counterexample for C8 as stated: on the image path the whole run is
invariant under the contrast value, although the spec's §4.4 contrast
remap is not — so the claimed contrast adjustment is not applied. -/
theorem c8_contrast_invariant_counterexample :
    main envGood { args0 with contrast := 7/5 } [137, 80, 78, 71] false world0 =
      main envGood { args0 with contrast := 99 } [137, 80, 78, 71] false world0 ∧
    specContrastRemap (11/20) (7/5) ≠ specContrastRemap (11/20) 99 := by
  constructor
  · rfl
  · norm_num [specContrastRemap]

/-- C10: with empty stdin (or a terminal on stdin) `main` prints the help
text and returns exit status 1, leaving files, display and debug viewer
untouched; any other run that returns normally has exit status 0. -/
theorem c10_help_and_exit_status (env : Env) (a : Args) (bytes : List Nat)
    (isatty : Bool) (w : World) :
    (bytes.length = 0 ∨ isatty = true →
      main env a bytes isatty w =
        .ok (1, { w with printed := w.printed ++ [helpText] })) ∧
    (¬ (bytes.length = 0 ∨ isatty = true) →
      ∀ n w2, main env a bytes isatty w = .ok (n, w2) → n = 0) := by
  constructor
  · intro h
    simp only [main, if_pos h]
  · intro h n w2 hm
    simp only [main, if_neg h] at hm
    cases his : is_image env bytes with
    | some img =>
      rw [his] at hm
      exact imageShowOrRender_exit env a img w n w2 hm
    | none =>
      rw [his] at hm
      cases hfa : from_ansi env a (String.mk (decodeUtf8Replace bytes)) w with
      | error e =>
        rw [hfa] at hm
        cases hm
      | ok v =>
        obtain ⟨img, w1⟩ := v
        rw [hfa] at hm
        exact imageShowOrRender_exit env a img w1 n w2 hm

/-- Witness for C10: empty stdin prints the help and exits 1; the
concrete nonempty run exits 0. -/
theorem c10_help_and_exit_status_witness :
    main envGood args0 [] false world0 =
      .ok (1, { world0 with printed := world0.printed ++ [helpText] }) ∧
    exitOf (main envGood args0 [104] false world0) = some 0 := by
  refine ⟨(c10_help_and_exit_status envGood args0 [] false world0).1 (Or.inl rfl), ?_⟩
  have h2 := (c10_help_and_exit_status envGood args0 [104] false world0).2 (by decide)
  rfl

end Asciink

